import Mathlib

/-!
Verification of the core communication primitives of the repository:
the server-sent-event parser (`EventSauce`, src/src/base/sse.ts) and the
reconnecting websocket duplex channel (`WebsocketWrapper`,
src/unnamed/part_000, duplicated verbatim in src/sse.ts).

All definitions are shallow embeddings of the TypeScript source.  JavaScript
strings are modelled by Lean `String`; the string primitives the source uses
(`indexOf`, `slice`, `split`, `+`) are re-implemented structurally on the
underlying character list so that every definition evaluates by kernel
reduction.
-/

/-! ### String primitives (JS `indexOf` / `slice` / `split` / `+`) -/

/-- Index of the first occurrence of the two-character sequence `a b` in a
character list, as in JS `s.indexOf(ab)` for a two-character needle;
`none` models the JS result `-1`. -/
def idxOfPair (a b : Char) : List Char → Option Nat
  | [] => none
  | [_] => none
  | c :: d :: rest =>
    if c = a ∧ d = b then some 0
    else (idxOfPair a b (d :: rest)).map (· + 1)

/-- JS `s.slice(0, n)`. -/
def strTake (s : String) (n : Nat) : String := ⟨s.data.take n⟩

/-- JS `s.slice(n)`. -/
def strDrop (s : String) (n : Nat) : String := ⟨s.data.drop n⟩

/-- JS string concatenation `s + t`, structurally on the character lists. -/
def strAppend (s t : String) : String := ⟨s.data ++ t.data⟩

/-- Split a character list at every `'\n'`, as JS `s.split('\n')`:
the empty list of characters yields one empty piece. -/
def splitNlChars : List Char → List (List Char)
  | [] => [[]]
  | c :: rest =>
    if c = '\n' then [] :: splitNlChars rest
    else
      match splitNlChars rest with
      | [] => [[c]]
      | l :: ls => (c :: l) :: ls

/-- JS `s.split('\n')`. -/
def splitNl (s : String) : List String := (splitNlChars s.data).map (fun l => ⟨l⟩)

/-! ### Event Parser data model (src/src/base/sse.ts) -/

/-- The message events emitted by `EventSauce` (src/src/base/sse.ts lines
9-26, 156-160).  `origin` is always `null` in the source. -/
structure EventSauceMessage where
  type : String
  data : String
  lastEventId : String
  origin : Option String := none
deriving DecidableEq, Repr

/-- The accumulated per-packet record `result` (src/src/base/sse.ts line
110): a partial map from the field labels `data`, `event`, `id`, `retry`
and the `comment` sentinel to their accumulated string values. -/
structure Packet where
  data? : Option String := none
  event? : Option String := none
  id? : Option String := none
  retry? : Option String := none
  comment? : Option String := none
deriving DecidableEq, Repr

/-- The field labels of the wire format: the four members of `fields`
(src/src/base/sse.ts line 41) plus the `comment` sentinel (line 40). -/
inductive Label
  | data
  | event
  | id
  | retry
  | comment
deriving DecidableEq, Repr

/-- Embeds `line.slice(0, index) || comment` followed by the membership test
`fields.includes(label)` (src/src/base/sse.ts lines 117-123): the empty
label denotes a comment; a label outside `fields` is invalid. -/
def toLabel (s : String) : Option Label :=
  if s = "" then some Label.comment
  else if s = "data" then some Label.data
  else if s = "event" then some Label.event
  else if s = "id" then some Label.id
  else if s = "retry" then some Label.retry
  else none

/-- The name of a label as printed in the `double <label>` error message
(src/src/base/sse.ts line 127). -/
def labelName : Label → String
  | Label.data => "data"
  | Label.event => "event"
  | Label.id => "id"
  | Label.retry => "retry"
  | Label.comment => "comment"

/-- Embeds the `label in result` lookup. -/
def getField (p : Packet) : Label → Option String
  | Label.data => p.data?
  | Label.event => p.event?
  | Label.id => p.id?
  | Label.retry => p.retry?
  | Label.comment => p.comment?

/-- Embeds the `result[label] = value` update. -/
def setField (p : Packet) : Label → String → Packet
  | Label.data, v => { p with data? := some v }
  | Label.event, v => { p with event? := some v }
  | Label.id, v => { p with id? := some v }
  | Label.retry, v => { p with retry? := some v }
  | Label.comment, v => { p with comment? := some v }

/-- Embeds `line.indexOf(': ')` and the two slices around it (src/src/base/sse.ts
lines 112-118): `none` models the `index === -1` case. -/
def splitLine (line : String) : Option (String × String) :=
  match idxOfPair ':' ' ' line.data with
  | none => none
  | some i => some (strTake line i, strDrop line (i + 2))

/-- Processing of one line of a packet into the accumulated record
(src/src/base/sse.ts lines 111-133): missing `': '` and unknown labels are
protocol errors; a repeated label is an error unless it is `data`, whose
values are joined by `'\n'` (`result[label] += '\n' + data`). -/
def addLine (p : Packet) (line : String) : Except String Packet :=
  match splitLine line with
  | none => Except.error "Invalid packet received: no colon"
  | some (labelStr, value) =>
    match toLabel labelStr with
    | none => Except.error "Invalid packet received: invalid label"
    | some l =>
      match getField p l with
      | some old =>
        if l = Label.data then
          Except.ok (setField p l (strAppend old (strAppend "\n" value)))
        else
          Except.error (strAppend "Invalid packet received: double " (labelName l))
      | none => Except.ok (setField p l value)

/-- Left fold of `addLine` over the lines of a packet. -/
def accLines : Packet → List String → Except String Packet
  | p, [] => Except.ok p
  | p, line :: rest =>
    match addLine p line with
    | Except.error e => Except.error e
    | Except.ok p' => accLines p' rest

/-- Embeds the loop `for (const line of packet.split('\n'))`
(src/src/base/sse.ts line 111). -/
def parsePacket (packet : String) : Except String Packet :=
  accLines {} (splitNl packet)

/-- Per-stream mutable state of `EventSauce`: `lastEventId` and
`reconnectAfter` (src/src/base/sse.ts lines 50-51, 63-64). -/
structure StreamState where
  lastEventId : String := ""
  reconnectAfter : Int := 0
deriving DecidableEq, Repr

/-- Decimal digit run to a natural number; `none` when a non-digit occurs. -/
def digitsToNatAux : Nat → List Char → Option Nat
  | acc, [] => some acc
  | acc, c :: rest =>
    if '0' ≤ c ∧ c ≤ '9' then digitsToNatAux (acc * 10 + (c.toNat - '0'.toNat)) rest
    else none

/-- Decimal digit run to a natural number; the empty run is `none`. -/
def digitsToNat : List Char → Option Nat
  | [] => none
  | l => digitsToNatAux 0 l

/-- Embeds `Number.isSafeInteger(+s)` together with the resulting value
(src/src/base/sse.ts lines 146-147), for the optional-sign decimal integer
literal forms of JS numeric strings: `some n` when `+s` is a safe integer
`n` (|n| ≤ 2^53 - 1), `none` otherwise. -/
def parseSafeInt (s : String) : Option Int :=
  match s.data with
  | '-' :: rest =>
    (digitsToNat rest).bind fun n =>
      if n ≤ 9007199254740991 then some (-(n : Int)) else none
  | l =>
    (digitsToNat l).bind fun n =>
      if n ≤ 9007199254740991 then some ((n : Int)) else none

/-- JS truthiness choice `x || d` for `x : string | undefined`:
the default wins when `x` is absent or the empty string. -/
def jsOr (x : Option String) (d : String) : String :=
  match x with
  | none => d
  | some s => if s = "" then d else s

/-- Whether `x` is truthy for `x : string | undefined`: present and
non-empty. -/
def jsTruthy (x : Option String) : Bool :=
  match x with
  | none => false
  | some s => s ≠ ""

/-- Processing of one extracted packet against the stream state
(src/src/base/sse.ts lines 110-166): parse the lines, check the
data/comment invariant, discard pure comments, update `reconnectAfter` on a
truthy safe-integer `retry`, update `lastEventId` on a truthy `id`, and
build the emitted `EventSauceMessage` with type `result.event || 'message'`,
payload `result.data!` and last-event-id `result.id || ''`.  The `Except`
error is the promise rejection that abandons the stream. -/
def processPacket (st : StreamState) (packet : String) :
    Except String (StreamState × Option EventSauceMessage) :=
  match parsePacket packet with
  | Except.error e => Except.error e
  | Except.ok result =>
    if result.comment?.isNone ∧ result.data?.isNone then
      Except.error "Invalid packet received: neither data nor comment"
    else if result.comment?.isSome ∧ result.data?.isSome then
      Except.error "Invalid packet received: comment and data"
    else if result.comment?.isSome then
      Except.ok (st, none)
    else
      let st1 :=
        if jsTruthy result.retry? then
          match parseSafeInt (result.retry?.getD "") with
          | some n => { st with reconnectAfter := n }
          | none => st
        else st
      let st2 :=
        if jsTruthy result.id? then { st1 with lastEventId := result.id?.getD "" }
        else st1
      Except.ok (st2, some {
        type := jsOr result.event? "message",
        data := result.data?.getD "",
        lastEventId := jsOr result.id? "",
        origin := none })

/-- State of the read loop: the undecoded-text buffer plus the per-stream
state (src/src/base/sse.ts lines 97-98). -/
structure LoopState where
  buffer : String := ""
  stream : StreamState := {}
deriving DecidableEq, Repr

/-- One iteration of the read loop on one decoded chunk
(src/src/base/sse.ts lines 100-167): append the chunk to the buffer, look
for the packet terminator `'\n\n'` ONCE (`if (index !== -1)`), and when
found extract the packet, keep the remainder, and process the packet.
At most one packet is processed per chunk; a pure comment packet also
consumes the iteration (`continue` returns to `reader.read()`). -/
def consumeChunk (ls : LoopState) (chunk : String) :
    Except String (LoopState × Option EventSauceMessage) :=
  let buffer := strAppend ls.buffer chunk
  match idxOfPair '\n' '\n' buffer.data with
  | none => Except.ok ({ ls with buffer := buffer }, none)
  | some index =>
    let packet := strTake buffer index
    let rest := strDrop buffer (index + 2)
    match processPacket ls.stream packet with
    | Except.error e => Except.error e
    | Except.ok (st, ev) => Except.ok ({ buffer := rest, stream := st }, ev)

/-- The read loop over a list of decoded chunks, collecting the emitted
message events in order; the third component is the terminal protocol
error, if the loop was abandoned by one (events emitted before the error
are kept, as their `onmessage` calls already happened). -/
def runChunks : LoopState → List String → LoopState × List EventSauceMessage × Option String
  | ls, [] => (ls, [], none)
  | ls, c :: cs =>
    match consumeChunk ls c with
    | Except.error e => (ls, [], some e)
    | Except.ok (ls', ev) =>
      let r := runChunks ls' cs
      (r.1, ev.toList ++ r.2.1, r.2.2)

/-- The loop state at stream open: empty buffer, empty `lastEventId`,
`reconnectAfter = 0` (src/src/base/sse.ts lines 61-64, 98). -/
def initLoop : LoopState := {}

/-! ### Duplex channel (`WebsocketWrapper`, src/unnamed/part_000; identical
copy in src/sse.ts lines 209-374) -/

/-- A typed server message: the optional numeric `id` field tested by
`hasId` (src/unnamed/part_000 lines 3-5) plus an opaque body standing for
the rest of the caller-parsed message. -/
structure ServerMsg where
  id? : Option Nat := none
  body : String := ""
deriving DecidableEq, Repr

/-- A typed client message: the optional numeric `id` slot written by
`send` (src/unnamed/part_000 line 119) plus an opaque body. -/
structure ClientMsg where
  id? : Option Nat := none
  body : String := ""
deriving DecidableEq, Repr

/-- Embeds `hasId` (src/unnamed/part_000 lines 3-5): the parsed value carries a
numeric `id` field. -/
def hasId (m : ServerMsg) : Bool := m.id?.isSome

/-- An inbound websocket frame: `typeof ev.data === 'string'` distinguishes
text frames (here already carrying the caller-parsed `ServerMsg`, since the
codec `parseServer ∘ JSON.parse` is an external collaborator modelled as
the identity on typed messages) from non-text frames. -/
inductive WsFrame
  | text (m : ServerMsg)
  | binary
deriving DecidableEq, Repr

/-- Externally observable reactions of the channel: subscriber invocations,
resolution or timeout-rejection of a pending correlated request, and the
wire write `this.ws.send(converted)` (carrying the typed message the
external codec serializes). -/
inductive WsAction
  | connect
  | failure
  | disconnect (reason : String)
  | resolveReply (id : Nat) (msg : ServerMsg)
  | deliverMessage (msg : ServerMsg)
  | rejectTimeout (id : Nat)
  | wireSend (msg : ClientMsg)
deriving DecidableEq, Repr

/-- The mutable fields of `WebsocketWrapper` (src/unnamed/part_000 lines
8-15, 100-103).  Socket instances are identified by the generation number
of the `websocketConstructor` call that produced them: `ws` is the identity
of the currently-recorded socket (`none` models `undefined`), `nextSocket`
the generation the next constructor call returns.  The pending-request
table keeps its keys (the stored resolvers are the promises of the
corresponding `send` calls; `Map.set` on an existing key replaces the
stored resolver, which key-set semantics capture).  The four `hasOn*` flags
record whether the corresponding subscriber callback is registered. -/
structure WsState where
  open_ : Bool := false
  disconnectReason : Option String := none
  reconnect : Bool := false
  reconnectTries : Nat := 0
  pending : List Nat := []
  ws : Option Nat := none
  nextSocket : Nat := 0
  hasOnConnect : Bool := false
  hasOnFailure : Bool := false
  hasOnDisconnect : Bool := false
  hasOnMessage : Bool := false
deriving DecidableEq, Repr

/-- Embeds the `Map.set` key semantics for the pending table. -/
def pendingSet (m : List Nat) (k : Nat) : List Nat :=
  if k ∈ m then m else m ++ [k]

/-- Embeds `Map.delete` for the pending table. -/
def pendingDelete (m : List Nat) (k : Nat) : List Nat := m.erase k

/-- Embeds `initWebsocket` (src/unnamed/part_000 lines 25-32): close the old
socket if any (its close event fires on the superseded instance and is
dropped by the stale-connection guard, so it has no state effect), clear
`open`, and record a fresh socket instance from the constructor. -/
def initWebsocket (s : WsState) : WsState :=
  { s with open_ := false, ws := some s.nextSocket, nextSocket := s.nextSocket + 1 }

/-- The constructor (src/unnamed/part_000 lines 17-23) after the builder
methods `autoReconnect` / `connect` / `failure` / `disconnect` / `message`
have set the given flags: initialize the fields and call `initWebsocket`. -/
def mkChannel (reconnect hasC hasF hasD hasM : Bool) : WsState :=
  initWebsocket {
    open_ := false, disconnectReason := none, reconnect := reconnect,
    reconnectTries := 0, pending := [], ws := none, nextSocket := 0,
    hasOnConnect := hasC, hasOnFailure := hasF,
    hasOnDisconnect := hasD, hasOnMessage := hasM }

/-- Embeds `ws.onopen` (src/unnamed/part_000 lines 34-44), bound to socket
instance `g`: stale-connection guard, then mark open, clear the pending
disconnect reason, invoke `connect` iff no reconnect attempt was recorded,
and reset the attempt counter. -/
def onopenCb (g : Nat) (s : WsState) : WsState × List WsAction :=
  if s.ws ≠ some g then (s, [])
  else
    ({ s with open_ := true, disconnectReason := none, reconnectTries := 0 },
      if s.reconnectTries = 0 ∧ s.hasOnConnect then [WsAction.connect] else [])

/-- Embeds `ws.onerror` (src/unnamed/part_000 lines 46-63), bound to socket
instance `g`: stale-connection guard; nothing when open; on a
first-attempt failure invoke `failure`; during a reconnect sequence the
condition `this.reconnect && this.reconnectTries++ < 5` increments the
counter whenever `reconnect` is set (short-circuit) and either re-enters
`initWebsocket` or invokes `disconnect` with the captured reason. -/
def onerrorCb (g : Nat) (s : WsState) : WsState × List WsAction :=
  if s.ws ≠ some g then (s, [])
  else if s.open_ then (s, [])
  else if s.reconnectTries ≠ 0 then
    if s.reconnect then
      if s.reconnectTries < 5 then
        (initWebsocket { s with reconnectTries := s.reconnectTries + 1 }, [])
      else
        ({ s with reconnectTries := s.reconnectTries + 1 },
          if s.hasOnDisconnect then [WsAction.disconnect (s.disconnectReason.getD "")] else [])
    else
      (s, if s.hasOnDisconnect then [WsAction.disconnect (s.disconnectReason.getD "")] else [])
  else
    (s, if s.hasOnFailure then [WsAction.failure] else [])

/-- Embeds `ws.onclose` (src/unnamed/part_000 lines 65-77), bound to socket
instance `g` and carrying the close reason: stale-connection guard; with
reconnection enabled and fewer than 5 recorded attempts, capture the
reason, bump the counter and re-enter `initWebsocket`; otherwise (the
counter still bumped when `reconnect` is set) mark not-open and invoke
`disconnect` with this close event's reason (`ev.reason ?? ''` — the
reason string itself, `''` only for a nullish reason, modelled by the
`reason` argument). -/
def oncloseCb (g : Nat) (reason : String) (s : WsState) : WsState × List WsAction :=
  if s.ws ≠ some g then (s, [])
  else if s.reconnect ∧ s.reconnectTries < 5 then
    (initWebsocket { s with reconnectTries := s.reconnectTries + 1,
                            disconnectReason := some reason }, [])
  else
    let s' := if s.reconnect then { s with reconnectTries := s.reconnectTries + 1 } else s
    ({ s' with open_ := false },
      if s.hasOnDisconnect then [WsAction.disconnect reason] else [])

/-- Embeds `ws.onmessage` (src/unnamed/part_000 lines 79-97), bound to socket
instance `g`: stale-connection guard; then, only for a text frame AND when
an `onMessage` subscriber is registered (`typeof ev.data === 'string' &&
this.onMessage`), parse the message; a message whose numeric `id` matches
a pending entry resolves and removes that entry and returns; every other
parsed message is handed to the `message` subscriber. -/
def onmessageCb (g : Nat) (frame : WsFrame) (s : WsState) : WsState × List WsAction :=
  if s.ws ≠ some g then (s, [])
  else
    match frame with
    | WsFrame.binary => (s, [])
    | WsFrame.text m =>
      if s.hasOnMessage then
        match m.id? with
        | some i =>
          if i ∈ s.pending then
            ({ s with pending := pendingDelete s.pending i }, [WsAction.resolveReply i m])
          else (s, [WsAction.deliverMessage m])
        | none => (s, [WsAction.deliverMessage m])
      else (s, [])

/-- What `send` returns to its caller: `void`, the immediate
`Promise.reject()` when the channel is not open, or the pending promise
keyed by the stamped correlation id. -/
inductive SendOutcome
  | unit
  | rejected
  | future (id : Nat)
deriving DecidableEq, Repr

/-- Result of a `send` call: the updated channel state, the emitted
actions, the caller's message object after the call (the source mutates it
in place via `(message as Client & { id?: number }).id = id`), and the
returned value. -/
structure SendResult where
  state : WsState
  actions : List WsAction
  callerMessage : ClientMsg
  result : SendOutcome
deriving DecidableEq, Repr

/-- Embeds `send` (src/unnamed/part_000 lines 105-139) at the instant `now` (the
value `Date.now()` returns): when not open or without a socket, reject or
silently drop; otherwise, for a correlated send, stamp the caller's
message with `id = Date.now()` in place; serialize and write the message;
for a correlated send additionally register the pending entry (after
arming the 5000 ms timeout) and return the promise. -/
def send (s : WsState) (message : ClientMsg) (resolve : Bool) (now : Nat) : SendResult :=
  if ¬ s.open_ ∨ s.ws = none then
    if resolve then ⟨s, [], message, SendOutcome.rejected⟩
    else ⟨s, [], message, SendOutcome.unit⟩
  else
    let message' := if resolve then { message with id? := some now } else message
    if resolve then
      ⟨{ s with pending := pendingSet s.pending now },
        [WsAction.wireSend message'], message', SendOutcome.future now⟩
    else
      ⟨s, [WsAction.wireSend message'], message', SendOutcome.unit⟩

/-- The 5000 ms timeout armed by a correlated `send` for id `id`
(src/unnamed/part_000 lines 132-135), firing: delete the pending entry and
reject the promise with `'Timeout!'` (the rejection settles the promise
only if no matching reply resolved it earlier). -/
def timeoutFires (id : Nat) (s : WsState) : WsState × List WsAction :=
  ({ s with pending := pendingDelete s.pending id }, [WsAction.rejectTimeout id])

/-- Embeds `destroy` (src/unnamed/part_000 lines 166-171): close the socket, mark
not-open, drop the socket reference. -/
def destroy (s : WsState) : WsState :=
  { s with open_ := false, ws := none }

/-- A sequence of close events, each delivered to the socket instance the
channel currently records (the scenario of 6 consecutive closes on a
never-opened channel). -/
def closeSeq : WsState → List String → WsState × List WsAction
  | s, [] => (s, [])
  | s, r :: rs =>
    let step := oncloseCb (s.ws.getD 0) r s
    let rest := closeSeq step.1 rs
    (rest.1, step.2 ++ rest.2)

/-! ### Subscriber invocation discipline -/

/-- Embeds the parser-side subscriber invocation pattern of `EventSauce`
(src/src/base/sse.ts lines 79-83, 88-92, 162-166, 177-181):
`try { this.handler?.call(this, ev) } catch (e) { console.error(e) }`.
A subscriber is a function that may throw (`Except.error`); the result
collects the logged exceptions, and an `Except.error` result would mean an
exception escaped the invocation site uncaught. -/
def sseCallHandler {α : Type} (h : Option (α → Except String Unit)) (ev : α) :
    Except String (List String) :=
  match h with
  | none => Except.ok []
  | some f =>
    match f ev with
    | Except.ok _ => Except.ok []
    | Except.error e => Except.ok [e]

/-- Embeds the channel-side subscriber invocation pattern of
`WebsocketWrapper` (src/unnamed/part_000 lines 41, 56-57, 60, 76, 90, 95:
`this.onConnect()`, `this.onDisconnect(...)`, `this.onFailure(ev)`,
`resolve(data)`, `this.onMessage(data)`): a bare call with no try/catch,
so an exception thrown by the subscriber propagates out of the socket
callback. -/
def wsCallHandler {α : Type} (h : Option (α → Except String Unit)) (ev : α) :
    Except String (List String) :=
  match h with
  | none => Except.ok []
  | some f =>
    match f ev with
    | Except.ok _ => Except.ok []
    | Except.error e => Except.error e

/-! ### Claim theorems -/

/-- Claim C1: the claim asserts chunk-boundary invariance of the Event
Parser.  The code violates it: the read loop tests `buffer.indexOf('\n\n')`
once per chunk (`if`, not a loop; src/src/base/sse.ts lines 105-106), so a
single chunk carrying the two complete packets `data: a\n\n` and
`data: b\n\n` produces only the event for `a`, with the second packet left
unprocessed in the buffer, while the same bytes split at the packet
boundary produce both events.  This theorem evaluates the code at that
failing input. -/
theorem C1_one_packet_per_chunk :
    (runChunks initLoop ["data: a\n\ndata: b\n\n"]).2.1 =
      [{ type := "message", data := "a", lastEventId := "" }] ∧
    (runChunks initLoop ["data: a\n\ndata: b\n\n"]).1.buffer = "data: b\n\n" ∧
    (runChunks initLoop ["data: a\n\n", "data: b\n\n"]).2.1 =
      [{ type := "message", data := "a", lastEventId := "" },
       { type := "message", data := "b", lastEventId := "" }] := by
  refine ⟨by decide, by decide, by decide⟩

/-- Claim C2: in every channel state, each of the four socket lifecycle
callbacks (`onopen`, `onerror`, `onclose`, `onmessage`) bound to a socket
instance `g` that is not the channel's currently-recorded socket leaves the
whole channel state (open flag, reconnectTries, disconnectReason, pending
table) unchanged and invokes no subscriber callback. -/
theorem C2_stale_guard (s : WsState) (g : Nat) (reason : String) (frame : WsFrame)
    (h : s.ws ≠ some g) :
    onopenCb g s = (s, []) ∧ onerrorCb g s = (s, []) ∧
    oncloseCb g reason s = (s, []) ∧ onmessageCb g frame s = (s, []) := by
  refine ⟨?_, ?_, ?_, ?_⟩ <;> simp [onopenCb, onerrorCb, oncloseCb, onmessageCb, h]

/-- Witness for C2 at a concrete channel (current socket 0, stale socket
7). -/
theorem C2_stale_guard_witness :
    ((mkChannel false false false false false).ws ≠ some 7) ∧
    (onopenCb 7 (mkChannel false false false false false) =
        (mkChannel false false false false false, []) ∧
      onerrorCb 7 (mkChannel false false false false false) =
        (mkChannel false false false false false, []) ∧
      oncloseCb 7 "bye" (mkChannel false false false false false) =
        (mkChannel false false false false false, []) ∧
      onmessageCb 7 WsFrame.binary (mkChannel false false false false false) =
        (mkChannel false false false false false, [])) :=
  ⟨by decide, C2_stale_guard (mkChannel false false false false false) 7 "bye"
      WsFrame.binary (by decide)⟩

/-- Claim C3 counterexample: with a pending request for id 1 but NO
`message` subscriber registered, an inbound text frame carrying id 1 does
nothing — the pending entry stays in the table and nothing is resolved,
because the whole `onmessage` body is guarded by
`typeof ev.data === 'string' && this.onMessage` (src/unnamed/part_000 line
83).  The claim required the pending request to be resolved and removed
`regardless of whether a message subscriber is registered`. -/
theorem C3_counterexample :
    onmessageCb 0 (WsFrame.text { id? := some 1, body := "x" })
        { mkChannel false false false false false with open_ := true, pending := [1] } =
      ({ mkChannel false false false false false with open_ := true, pending := [1] }, []) ∧
    ({ mkChannel false false false false false with
        open_ := true, pending := [1] } : WsState).pending = [1] := by
  refine ⟨by decide, by decide⟩

/-- Claim C3 amended: provided a `message` subscriber IS registered, every
inbound text frame is routed as the claim states — a message whose numeric
id matches a pending request resolves and removes exactly that entry and is
not also forwarded to the `message` subscriber; a message whose id matches
no entry, or which has no id, is delivered to the `message` subscriber.
(Without a registered subscriber the frame is ignored entirely, pending
resolution included — see the counterexample.) -/
theorem C3_message_routing (s : WsState) (g : Nat) (m : ServerMsg)
    (hg : s.ws = some g) (hm : s.hasOnMessage = true) :
    (∀ i, m.id? = some i → i ∈ s.pending →
      onmessageCb g (WsFrame.text m) s =
        ({ s with pending := pendingDelete s.pending i }, [WsAction.resolveReply i m])) ∧
    (∀ i, m.id? = some i → i ∉ s.pending →
      onmessageCb g (WsFrame.text m) s = (s, [WsAction.deliverMessage m])) ∧
    (m.id? = none → onmessageCb g (WsFrame.text m) s = (s, [WsAction.deliverMessage m])) := by
  refine ⟨fun i hi hmem => ?_, fun i hi hmem => ?_, fun hnone => ?_⟩ <;>
    simp_all [onmessageCb]

/-- Witness for C3 (amended) at a concrete channel with pending id 5 and a
registered `message` subscriber receiving a matching reply. -/
theorem C3_message_routing_witness :
    onmessageCb 0 (WsFrame.text { id? := some 5, body := "reply" })
        { mkChannel false false false false true with open_ := true, pending := [5] } =
      ({ mkChannel false false false false true with open_ := true, pending := pendingDelete [5] 5 },
        [WsAction.resolveReply 5 { id? := some 5, body := "reply" }]) :=
  (C3_message_routing
      { mkChannel false false false false true with open_ := true, pending := [5] }
      0 { id? := some 5, body := "reply" } (by decide) (by decide)).1 5 rfl (by decide)

/-- Claim C4: a channel with automatic reconnection and a `disconnect`
subscriber, never opened, subjected to 6 consecutive close events (reasons
r1..r6, each delivered to the then-current socket): the first five closes
each increment the attempt counter and re-enter Connecting (the socket
generation advances from 1 to 6, i.e. exactly 5 reconnect attempts — the
constructor produced generation 0, `nextSocket = 1`), and the `disconnect`
subscriber is invoked exactly once, with the last close reason r6. -/
theorem C4_bounded_reconnect (r1 r2 r3 r4 r5 r6 : String) :
    closeSeq (mkChannel true false false true false) [r1, r2, r3, r4, r5, r6] =
      ({ open_ := false, disconnectReason := some r5, reconnect := true,
         reconnectTries := 6, pending := [], ws := some 5, nextSocket := 6,
         hasOnConnect := false, hasOnFailure := false, hasOnDisconnect := true,
         hasOnMessage := false }, [WsAction.disconnect r6]) ∧
    (mkChannel true false false true false).nextSocket = 1 := by
  exact ⟨by simp [closeSeq, oncloseCb, initWebsocket, mkChannel], rfl⟩

/-- Claim C5: a correlated send on an open channel registers its id in the
pending table and returns the future keyed by it; when the 5000 ms timeout
fires with no reply having arrived, the future is rejected with the
timeout signal and the entry is removed (the table returns to its previous
key set); a reply carrying that id arriving afterwards is then delivered
as an ordinary message (with a `message` subscriber registered), not
resolved against the gone entry. -/
theorem C5_timeout_cleanup (s : WsState) (g now : Nat) (m : ClientMsg) (body : String)
    (hopen : s.open_ = true) (hg : s.ws = some g) (hnp : now ∉ s.pending)
    (hm : s.hasOnMessage = true) :
    (send s m true now).result = SendOutcome.future now ∧
    now ∈ (send s m true now).state.pending ∧
    (timeoutFires now (send s m true now).state).2 = [WsAction.rejectTimeout now] ∧
    (timeoutFires now (send s m true now).state).1.pending = s.pending ∧
    now ∉ (timeoutFires now (send s m true now).state).1.pending ∧
    onmessageCb g (WsFrame.text { id? := some now, body := body })
        (timeoutFires now (send s m true now).state).1 =
      ((timeoutFires now (send s m true now).state).1,
        [WsAction.deliverMessage { id? := some now, body := body }]) := by
  have hws : ¬ s.ws = none := by simp [hg]
  have herase : pendingDelete (pendingSet s.pending now) now = s.pending := by
    simp [pendingDelete, pendingSet, hnp, List.erase_append_right,
      List.erase_cons_head]
  refine ⟨?_, ?_, ?_, ?_, ?_, ?_⟩ <;>
    simp_all [send, timeoutFires, onmessageCb, pendingSet, pendingDelete, hopen, hws, hg, hm]

/-- Witness for C5 at a concrete opened channel and send instant 2000. -/
theorem C5_timeout_cleanup_witness :
    (((onopenCb 0 (mkChannel false false false false true)).1.open_ = true) ∧
      ((onopenCb 0 (mkChannel false false false false true)).1.ws = some 0) ∧
      (2000 ∉ (onopenCb 0 (mkChannel false false false false true)).1.pending) ∧
      ((onopenCb 0 (mkChannel false false false false true)).1.hasOnMessage = true)) ∧
    ((send (onopenCb 0 (mkChannel false false false false true)).1
        { body := "req" } true 2000).result = SendOutcome.future 2000 ∧
      2000 ∈ (send (onopenCb 0 (mkChannel false false false false true)).1
        { body := "req" } true 2000).state.pending ∧
      (timeoutFires 2000 (send (onopenCb 0 (mkChannel false false false false true)).1
        { body := "req" } true 2000).state).2 = [WsAction.rejectTimeout 2000] ∧
      (timeoutFires 2000 (send (onopenCb 0 (mkChannel false false false false true)).1
        { body := "req" } true 2000).state).1.pending =
        (onopenCb 0 (mkChannel false false false false true)).1.pending ∧
      2000 ∉ (timeoutFires 2000 (send (onopenCb 0 (mkChannel false false false false true)).1
        { body := "req" } true 2000).state).1.pending ∧
      onmessageCb 0 (WsFrame.text { id? := some 2000, body := "late" })
          (timeoutFires 2000 (send (onopenCb 0 (mkChannel false false false false true)).1
            { body := "req" } true 2000).state).1 =
        ((timeoutFires 2000 (send (onopenCb 0 (mkChannel false false false false true)).1
            { body := "req" } true 2000).state).1,
          [WsAction.deliverMessage { id? := some 2000, body := "late" }])) :=
  ⟨⟨by decide, by decide, by decide, by decide⟩,
    C5_timeout_cleanup (onopenCb 0 (mkChannel false false false false true)).1 0 2000
      { body := "req" } "late" (by decide) (by decide) (by decide) (by decide)⟩

/-- Claim C6: the claim asserts two correlated sends in the same
millisecond get distinct correlation ids.  The code derives the id from
`Date.now()` (src/unnamed/part_000 line 118), so two sends at the same
instant (here both at millisecond 1000) are stamped with the SAME id, and
the second `pending.set` overwrites the first send's resolver, leaving a
single table entry for two in-flight requests — the spec's own design
notes flag this as a correctness gap of the original.  This theorem
evaluates the code at that failing input. -/
theorem C6_id_collision :
    (send ((onopenCb 0 (mkChannel false false false false true)).1)
        { body := "m1" } true 1000).actions =
      [WsAction.wireSend { id? := some 1000, body := "m1" }] ∧
    (send (send ((onopenCb 0 (mkChannel false false false false true)).1)
        { body := "m1" } true 1000).state { body := "m2" } true 1000).actions =
      [WsAction.wireSend { id? := some 1000, body := "m2" }] ∧
    (send ((onopenCb 0 (mkChannel false false false false true)).1)
        { body := "m1" } true 1000).result = SendOutcome.future 1000 ∧
    (send (send ((onopenCb 0 (mkChannel false false false false true)).1)
        { body := "m1" } true 1000).state { body := "m2" } true 1000).result =
      SendOutcome.future 1000 ∧
    (send (send ((onopenCb 0 (mkChannel false false false false true)).1)
        { body := "m1" } true 1000).state { body := "m2" } true 1000).state.pending =
      [1000] := by
  refine ⟨by decide, by decide, by decide, by decide, by decide⟩

/-- Claim C7 counterexample: the packet `id: 7\ndata: a` sets the stream's
persisted `lastEventId` to "7", yet the following packet `data: b`, which
carries no `id`, is emitted with last-event-id "" — not the persisted "7"
the claim requires — because the source builds the event from
`result.id || ''` (src/src/base/sse.ts line 158), never from
`this.lastEventId`. -/
theorem C7_counterexample :
    (runChunks initLoop ["id: 7\ndata: a\n\n", "data: b\n\n"]).2.1 =
      [{ type := "message", data := "a", lastEventId := "7" },
       { type := "message", data := "b", lastEventId := "" }] ∧
    (runChunks initLoop ["id: 7\ndata: a\n\n", "data: b\n\n"]).1.stream.lastEventId = "7" ∧
    ("" : String) ≠ "7" := by
  refine ⟨by decide, by decide, by decide⟩

/-- Claim C7 amended: every message event the parser emits has type equal
to the packet's `event` value when that is non-empty and `"message"`
otherwise, payload equal to the accumulated `data` value, and
last-event-id equal to the packet's own `id` value when that is non-empty
and the EMPTY STRING otherwise — the stream's persisted `lastEventId` is
updated by id-bearing packets (line 153) but never read when building an
event (line 158). -/
theorem C7_emitted_event_fields (st : StreamState) (packet : String)
    (st' : StreamState) (ev : EventSauceMessage) (result : Packet)
    (hp : parsePacket packet = Except.ok result)
    (h : processPacket st packet = Except.ok (st', some ev)) :
    ev.type = jsOr result.event? "message" ∧
    ev.data = result.data?.getD "" ∧
    ev.lastEventId = jsOr result.id? "" := by
  unfold processPacket at h
  rw [hp] at h
  dsimp only at h
  split_ifs at h <;> simp_all <;>
    (obtain ⟨h1, hev⟩ := h; subst hev; exact ⟨rfl, rfl, rfl⟩)

/-- Witness for C7 (amended) at the concrete packet
`event: ping\nid: 3\ndata: x`. -/
theorem C7_emitted_event_fields_witness :
    parsePacket "event: ping\nid: 3\ndata: x" =
      Except.ok { data? := some "x", event? := some "ping", id? := some "3" } ∧
    processPacket {} "event: ping\nid: 3\ndata: x" =
      Except.ok ({ lastEventId := "3", reconnectAfter := 0 },
        some { type := "ping", data := "x", lastEventId := "3" }) ∧
    (({ type := "ping", data := "x", lastEventId := "3" } : EventSauceMessage).type =
        jsOr (some "ping") "message" ∧
      ({ type := "ping", data := "x", lastEventId := "3" } : EventSauceMessage).data =
        (some "x").getD "" ∧
      ({ type := "ping", data := "x", lastEventId := "3" } : EventSauceMessage).lastEventId =
        jsOr (some "3") "") :=
  ⟨rfl, rfl,
    C7_emitted_event_fields {} "event: ping\nid: 3\ndata: x" _ _ _ rfl rfl⟩

/-- Claim C8: a line whose label parses as `data` never fails on a packet
that already accumulated a `data` value — the new value is appended after
a `'\n'` (arrival order); a line whose label parses as `event`, `id`,
`retry` or the comment sentinel fails with the protocol error
`double <label>` when that field is already present.  Concretely, the
spec's example packet `data: a\ndata: b\nid: 1\nid: 2` terminates the
stream with `double id` and emits no event, while `data: a\ndata: b`
alone emits one event with payload `a\nb`. -/
theorem C8_repeated_fields (p : Packet) (line v old : String) :
    (splitLine line = some ("data", v) → p.data? = some old →
      addLine p line =
        Except.ok { p with data? := some (strAppend old (strAppend "\n" v)) }) ∧
    (splitLine line = some ("event", v) → p.event? = some old →
      addLine p line = Except.error "Invalid packet received: double event") ∧
    (splitLine line = some ("id", v) → p.id? = some old →
      addLine p line = Except.error "Invalid packet received: double id") ∧
    (splitLine line = some ("retry", v) → p.retry? = some old →
      addLine p line = Except.error "Invalid packet received: double retry") ∧
    (splitLine line = some ("", v) → p.comment? = some old →
      addLine p line = Except.error "Invalid packet received: double comment") ∧
    runChunks initLoop ["data: a\ndata: b\nid: 1\nid: 2\n\n"] =
      (initLoop, [], some "Invalid packet received: double id") ∧
    (runChunks initLoop ["data: a\ndata: b\n\n"]).2 =
      ([{ type := "message", data := "a\nb", lastEventId := "" }], none) := by
  refine ⟨fun h1 h2 => ?_, fun h1 h2 => ?_, fun h1 h2 => ?_, fun h1 h2 => ?_,
    fun h1 h2 => ?_, by decide, by decide⟩ <;>
    simp_all [addLine, toLabel, getField, setField] <;> decide

/-- Witness for C8 at the concrete repeated line `id: 2` against a packet
that already carries id 1. -/
theorem C8_repeated_fields_witness :
    splitLine "id: 2" = some ("id", "2") ∧
    ({ data? := some "a\nb", id? := some "1" } : Packet).id? = some "1" ∧
    addLine { data? := some "a\nb", id? := some "1" } "id: 2" =
      Except.error "Invalid packet received: double id" :=
  ⟨by decide, rfl,
    (C8_repeated_fields { data? := some "a\nb", id? := some "1" } "id: 2" "2" "1").2.2.1
      (by decide) rfl⟩

/-- Claim C9 counterexample: a throwing `message` subscriber of the Duplex
Channel: the invocation `this.onMessage(data)` (src/unnamed/part_000 line
95) has no try/catch around it, so the exception propagates out of the
socket callback uncaught — refuting the claim's assertion that the
channel's subscriber exceptions are caught and logged. -/
theorem C9_counterexample :
    wsCallHandler (some fun _ : ServerMsg => Except.error "subscriber threw")
        { id? := none, body := "x" } = Except.error "subscriber threw" := rfl

/-- Claim C9 amended: the EVENT PARSER's subscriber invocations
(onopen/onmessage/onerror) catch and log a thrown handler exception and
never let it propagate into the parser — every invocation returns normally
with the thrown exceptions logged.  The Duplex Channel's subscriber
invocations, by contrast, are bare calls and propagate such exceptions
(see the counterexample). -/
theorem C9_parser_catches_handler_exceptions {α : Type}
    (h : Option (α → Except String Unit)) (ev : α) :
    ∃ logged, sseCallHandler h ev = Except.ok logged := by
  unfold sseCallHandler
  cases h with
  | none => exact ⟨[], rfl⟩
  | some f => cases hf : f ev with
    | ok u => exact ⟨[], by simp [hf]⟩
    | error e => exact ⟨[e], by simp [hf]⟩

/-- Claim C10: a correlated send on an open channel mutates the caller's
own message object in place, setting its `id` property to the correlation
id before serialization; whenever the message did not already carry
exactly that id, the caller's argument is observably changed. -/
theorem C10_send_mutates_caller_message (s : WsState) (m : ClientMsg) (now : Nat)
    (hopen : s.open_ = true) (hws : s.ws ≠ none) :
    (send s m true now).callerMessage = { m with id? := some now } ∧
    (m.id? ≠ some now → (send s m true now).callerMessage ≠ m) := by
  have h1 : (send s m true now).callerMessage = { m with id? := some now } := by
    simp [send, hopen, hws]
  refine ⟨h1, fun hne heq => hne ?_⟩
  have := heq ▸ h1
  exact (congrArg ClientMsg.id? this.symm).symm ▸ rfl

/-- Witness for C10 at a concrete opened channel, message and send instant
3000. -/
theorem C10_send_mutates_caller_message_witness :
    (((onopenCb 0 (mkChannel false false false false false)).1.open_ = true) ∧
      ((onopenCb 0 (mkChannel false false false false false)).1.ws ≠ none)) ∧
    ((send (onopenCb 0 (mkChannel false false false false false)).1
        { body := "payload" } true 3000).callerMessage =
      { id? := some 3000, body := "payload" } ∧
      (({ body := "payload" } : ClientMsg).id? ≠ some 3000 →
        (send (onopenCb 0 (mkChannel false false false false false)).1
          { body := "payload" } true 3000).callerMessage ≠ { body := "payload" })) :=
  ⟨⟨by decide, by decide⟩,
    C10_send_mutates_caller_message (onopenCb 0 (mkChannel false false false false false)).1
      { body := "payload" } 3000 (by decide) (by decide)⟩
